/-
Verification of the bonding-eligibility and molecule-completion evaluator of
the molecular-building game.

The embedding below is a shallow translation of the TypeScript source:
  * `AtomData`, `ATOMS`, `MOLECULES`, `getBondType`, `canBond`, `getMaxBonds`
    come from src/src/atomData.ts;
  * `PlacedAtom`, `MolecularBond`, `calculateAvailableBonds`, `createBond`,
    `handleBondClick` (the bonding branch of `handleAtomClick`) and
    `checkMoleculeCompletion` come from the main scene component
    (src/unnamed/part_006).

Number representation: every numeric literal in the source is an exact
decimal, so JavaScript numbers are embedded as integers at a fixed scale:
electronegativity in tenths (source values all have one decimal place),
display radius in hundredths, and scene coordinates as integers, with the
distance test `sqrt(dx²+dy²+dz²) > 4` embedded as the equivalent
`dx²+dy²+dz² > 16`.  Where a comparison can feel IEEE-754 rounding it is
modelled bit-exactly: `getBondType`'s `> 1.7` test goes through an exact
model of binary64 values and correctly rounded subtraction (see
`doubleOfTenths` / `jsSubScaled`), because pairs with exact difference 1.7
can round above the double `1.7`.  `canBond`'s fallback `diff <= 3.0` is
embedded as the exact-tenths comparison `≤ 30`: on the catalog's
electronegativity values the binary64 evaluation coincides with it — the
only pairs with exact difference 3.0 there are 3.0−0.0 and 4.0−1.0, whose
doubles subtract exactly.  Element symbols and instance identifiers are
`String`s, and the record-typed symbol→count tables are embedded as
occurrence counts over lists of symbols.
-/
import Mathlib

/-- Element record, from `interface AtomData` in atomData.ts.
`electronegativity` is in tenths and `radius` in hundredths of the source's
decimal values. -/
structure AtomData where
  symbol : String
  name : String
  atomicNumber : Nat
  valenceElectrons : Nat
  electronegativity : ℤ
  color : String
  radius : ℤ
  group : Nat
  period : Nat
  electronConfiguration : List Nat
deriving DecidableEq

/-- Bond category, from the `'ionic' | 'covalent'` union type. -/
inductive BondType where
  | ionic
  | covalent
deriving DecidableEq

def Atoms.H : AtomData := ⟨"H", "Hydrogen", 1, 1, 21, "#ffffff", 30, 1, 1, [1]⟩
def Atoms.He : AtomData := ⟨"He", "Helium", 2, 2, 0, "#d9ffff", 28, 18, 1, [2]⟩
def Atoms.Li : AtomData := ⟨"Li", "Lithium", 3, 1, 10, "#cc80ff", 68, 1, 2, [2, 1]⟩
def Atoms.Be : AtomData := ⟨"Be", "Beryllium", 4, 2, 15, "#c2ff00", 35, 2, 2, [2, 2]⟩
def Atoms.B : AtomData := ⟨"B", "Boron", 5, 3, 20, "#ffb5b5", 83, 13, 2, [2, 3]⟩
def Atoms.C : AtomData := ⟨"C", "Carbon", 6, 4, 25, "#909090", 68, 14, 2, [2, 4]⟩
def Atoms.N : AtomData := ⟨"N", "Nitrogen", 7, 5, 30, "#3050f8", 68, 15, 2, [2, 5]⟩
def Atoms.O : AtomData := ⟨"O", "Oxygen", 8, 6, 35, "#ff0d0d", 68, 16, 2, [2, 6]⟩
def Atoms.F : AtomData := ⟨"F", "Fluorine", 9, 7, 40, "#90e050", 64, 17, 2, [2, 7]⟩
def Atoms.Ne : AtomData := ⟨"Ne", "Neon", 10, 8, 0, "#b3e3f5", 58, 18, 2, [2, 8]⟩
def Atoms.Na : AtomData := ⟨"Na", "Sodium", 11, 1, 9, "#ab5cf2", 166, 1, 3, [2, 8, 1]⟩
def Atoms.Mg : AtomData := ⟨"Mg", "Magnesium", 12, 2, 12, "#8aff00", 141, 2, 3, [2, 8, 2]⟩
def Atoms.Al : AtomData := ⟨"Al", "Aluminum", 13, 3, 15, "#bfa6a6", 121, 13, 3, [2, 8, 3]⟩
def Atoms.Si : AtomData := ⟨"Si", "Silicon", 14, 4, 18, "#f0c8a0", 111, 14, 3, [2, 8, 4]⟩
def Atoms.P : AtomData := ⟨"P", "Phosphorus", 15, 5, 21, "#ff8000", 98, 15, 3, [2, 8, 5]⟩
def Atoms.S : AtomData := ⟨"S", "Sulfur", 16, 6, 25, "#ffff30", 88, 16, 3, [2, 8, 6]⟩
def Atoms.Cl : AtomData := ⟨"Cl", "Chlorine", 17, 7, 30, "#1ff01f", 79, 17, 3, [2, 8, 7]⟩
def Atoms.Ar : AtomData := ⟨"Ar", "Argon", 18, 8, 0, "#80d1e3", 71, 18, 3, [2, 8, 8]⟩
def Atoms.K : AtomData := ⟨"K", "Potassium", 19, 1, 8, "#8f40d4", 203, 1, 4, [2, 8, 8, 1]⟩
def Atoms.Ca : AtomData := ⟨"Ca", "Calcium", 20, 2, 10, "#3dff00", 176, 2, 4, [2, 8, 8, 2]⟩
def Atoms.Sc : AtomData := ⟨"Sc", "Scandium", 21, 3, 13, "#e6e6e6", 170, 3, 4, [2, 8, 9, 2]⟩
def Atoms.Ti : AtomData := ⟨"Ti", "Titanium", 22, 4, 15, "#bfc2c7", 160, 4, 4, [2, 8, 10, 2]⟩
def Atoms.V : AtomData := ⟨"V", "Vanadium", 23, 5, 16, "#a6a6ab", 153, 5, 4, [2, 8, 11, 2]⟩
def Atoms.Cr : AtomData := ⟨"Cr", "Chromium", 24, 6, 16, "#8a99c7", 139, 6, 4, [2, 8, 13, 1]⟩
def Atoms.Mn : AtomData := ⟨"Mn", "Manganese", 25, 7, 15, "#9c7ac7", 139, 7, 4, [2, 8, 13, 2]⟩
def Atoms.Fe : AtomData := ⟨"Fe", "Iron", 26, 8, 18, "#e06633", 132, 8, 4, [2, 8, 14, 2]⟩
def Atoms.Co : AtomData := ⟨"Co", "Cobalt", 27, 9, 18, "#f090a0", 126, 9, 4, [2, 8, 15, 2]⟩
def Atoms.Ni : AtomData := ⟨"Ni", "Nickel", 28, 10, 18, "#50d050", 124, 10, 4, [2, 8, 16, 2]⟩
def Atoms.Cu : AtomData := ⟨"Cu", "Copper", 29, 1, 19, "#c88033", 132, 11, 4, [2, 8, 18, 1]⟩
def Atoms.Zn : AtomData := ⟨"Zn", "Zinc", 30, 2, 16, "#7d80b0", 122, 12, 4, [2, 8, 18, 2]⟩
def Atoms.Ga : AtomData := ⟨"Ga", "Gallium", 31, 3, 16, "#c28f8f", 122, 13, 4, [2, 8, 18, 3]⟩
def Atoms.Ge : AtomData := ⟨"Ge", "Germanium", 32, 4, 18, "#668f8f", 120, 14, 4, [2, 8, 18, 4]⟩
def Atoms.As : AtomData := ⟨"As", "Arsenic", 33, 5, 20, "#bd80e3", 119, 15, 4, [2, 8, 18, 5]⟩
def Atoms.Se : AtomData := ⟨"Se", "Selenium", 34, 6, 24, "#ffa100", 120, 16, 4, [2, 8, 18, 6]⟩
def Atoms.Br : AtomData := ⟨"Br", "Bromine", 35, 7, 28, "#a62929", 120, 17, 4, [2, 8, 18, 7]⟩
def Atoms.Kr : AtomData := ⟨"Kr", "Krypton", 36, 8, 0, "#5cb8d1", 116, 18, 4, [2, 8, 18, 8]⟩
def Atoms.Rb : AtomData := ⟨"Rb", "Rubidium", 37, 1, 8, "#702eb0", 220, 1, 5, [2, 8, 18, 8, 1]⟩
def Atoms.Sr : AtomData := ⟨"Sr", "Strontium", 38, 2, 10, "#00ff00", 195, 2, 5, [2, 8, 18, 8, 2]⟩
def Atoms.Y : AtomData := ⟨"Y", "Yttrium", 39, 3, 12, "#94ffff", 190, 3, 5, [2, 8, 18, 9, 2]⟩
def Atoms.Zr : AtomData := ⟨"Zr", "Zirconium", 40, 4, 13, "#94e0e0", 175, 4, 5, [2, 8, 18, 10, 2]⟩
def Atoms.Nb : AtomData := ⟨"Nb", "Niobium", 41, 5, 16, "#73c2c9", 164, 5, 5, [2, 8, 18, 12, 1]⟩
def Atoms.Mo : AtomData := ⟨"Mo", "Molybdenum", 42, 6, 22, "#54b5b5", 154, 6, 5, [2, 8, 18, 13, 1]⟩
def Atoms.Tc : AtomData := ⟨"Tc", "Technetium", 43, 7, 19, "#3b9e9e", 147, 7, 5, [2, 8, 18, 13, 2]⟩
def Atoms.Ru : AtomData := ⟨"Ru", "Ruthenium", 44, 8, 22, "#248f8f", 146, 8, 5, [2, 8, 18, 15, 1]⟩
def Atoms.Rh : AtomData := ⟨"Rh", "Rhodium", 45, 9, 23, "#0a7d8c", 142, 9, 5, [2, 8, 18, 16, 1]⟩
def Atoms.Pd : AtomData := ⟨"Pd", "Palladium", 46, 10, 22, "#006985", 139, 10, 5, [2, 8, 18, 18, 0]⟩
def Atoms.Ag : AtomData := ⟨"Ag", "Silver", 47, 1, 19, "#c0c0c0", 172, 11, 5, [2, 8, 18, 18, 1]⟩
def Atoms.Cd : AtomData := ⟨"Cd", "Cadmium", 48, 2, 17, "#ffd98f", 158, 12, 5, [2, 8, 18, 18, 2]⟩
def Atoms.In : AtomData := ⟨"In", "Indium", 49, 3, 18, "#a67573", 193, 13, 5, [2, 8, 18, 18, 3]⟩
def Atoms.Sn : AtomData := ⟨"Sn", "Tin", 50, 4, 20, "#668080", 169, 14, 5, [2, 8, 18, 18, 4]⟩
def Atoms.Sb : AtomData := ⟨"Sb", "Antimony", 51, 5, 21, "#9e63b5", 159, 15, 5, [2, 8, 18, 18, 5]⟩
def Atoms.Te : AtomData := ⟨"Te", "Tellurium", 52, 6, 21, "#d47a00", 170, 16, 5, [2, 8, 18, 18, 6]⟩
def Atoms.I : AtomData := ⟨"I", "Iodine", 53, 7, 25, "#940094", 139, 17, 5, [2, 8, 18, 18, 7]⟩
def Atoms.Xe : AtomData := ⟨"Xe", "Xenon", 54, 8, 26, "#429eb0", 140, 18, 5, [2, 8, 18, 18, 8]⟩
def Atoms.Cs : AtomData := ⟨"Cs", "Cesium", 55, 1, 7, "#57178f", 244, 1, 6, [2, 8, 18, 18, 8, 1]⟩
def Atoms.Ba : AtomData := ⟨"Ba", "Barium", 56, 2, 9, "#00c900", 215, 2, 6, [2, 8, 18, 18, 8, 2]⟩
def Atoms.La : AtomData := ⟨"La", "Lanthanum", 57, 3, 11, "#70d4ff", 207, 3, 6, [2, 8, 18, 18, 9, 2]⟩
def Atoms.Ce : AtomData := ⟨"Ce", "Cerium", 58, 4, 11, "#ffffc7", 204, 3, 6, [2, 8, 18, 19, 9, 2]⟩
def Atoms.Pr : AtomData := ⟨"Pr", "Praseodymium", 59, 5, 11, "#d9ffc7", 203, 3, 6, [2, 8, 18, 21, 8, 2]⟩
def Atoms.Nd : AtomData := ⟨"Nd", "Neodymium", 60, 6, 11, "#c7ffc7", 201, 3, 6, [2, 8, 18, 22, 8, 2]⟩
def Atoms.Pm : AtomData := ⟨"Pm", "Promethium", 61, 7, 11, "#a3ffc7", 199, 3, 6, [2, 8, 18, 23, 8, 2]⟩
def Atoms.Sm : AtomData := ⟨"Sm", "Samarium", 62, 8, 12, "#8fffc7", 198, 3, 6, [2, 8, 18, 24, 8, 2]⟩
def Atoms.Eu : AtomData := ⟨"Eu", "Europium", 63, 9, 12, "#61ffc7", 198, 3, 6, [2, 8, 18, 25, 8, 2]⟩
def Atoms.Gd : AtomData := ⟨"Gd", "Gadolinium", 64, 10, 12, "#45ffc7", 196, 3, 6, [2, 8, 18, 25, 9, 2]⟩
def Atoms.Tb : AtomData := ⟨"Tb", "Terbium", 65, 11, 12, "#30ffc7", 194, 3, 6, [2, 8, 18, 27, 8, 2]⟩
def Atoms.Dy : AtomData := ⟨"Dy", "Dysprosium", 66, 12, 12, "#1fffc7", 192, 3, 6, [2, 8, 18, 28, 8, 2]⟩
def Atoms.Ho : AtomData := ⟨"Ho", "Holmium", 67, 13, 12, "#00ff9c", 192, 3, 6, [2, 8, 18, 29, 8, 2]⟩
def Atoms.Er : AtomData := ⟨"Er", "Erbium", 68, 14, 12, "#00e675", 189, 3, 6, [2, 8, 18, 30, 8, 2]⟩
def Atoms.Tm : AtomData := ⟨"Tm", "Thulium", 69, 15, 12, "#00d452", 190, 3, 6, [2, 8, 18, 31, 8, 2]⟩
def Atoms.Yb : AtomData := ⟨"Yb", "Ytterbium", 70, 16, 11, "#00bf38", 187, 3, 6, [2, 8, 18, 32, 8, 2]⟩
def Atoms.Lu : AtomData := ⟨"Lu", "Lutetium", 71, 17, 13, "#00ab24", 187, 3, 6, [2, 8, 18, 32, 9, 2]⟩
def Atoms.Hf : AtomData := ⟨"Hf", "Hafnium", 72, 4, 13, "#4dc2ff", 175, 4, 6, [2, 8, 18, 32, 10, 2]⟩
def Atoms.Ta : AtomData := ⟨"Ta", "Tantalum", 73, 5, 15, "#4da6ff", 170, 5, 6, [2, 8, 18, 32, 11, 2]⟩
def Atoms.W : AtomData := ⟨"W", "Tungsten", 74, 6, 24, "#2194d6", 162, 6, 6, [2, 8, 18, 32, 12, 2]⟩
def Atoms.Re : AtomData := ⟨"Re", "Rhenium", 75, 7, 19, "#267dab", 151, 7, 6, [2, 8, 18, 32, 13, 2]⟩
def Atoms.Os : AtomData := ⟨"Os", "Osmium", 76, 8, 22, "#266696", 144, 8, 6, [2, 8, 18, 32, 14, 2]⟩
def Atoms.Ir : AtomData := ⟨"Ir", "Iridium", 77, 9, 22, "#175487", 141, 9, 6, [2, 8, 18, 32, 15, 2]⟩
def Atoms.Pt : AtomData := ⟨"Pt", "Platinum", 78, 10, 23, "#d0d0e0", 136, 10, 6, [2, 8, 18, 32, 17, 1]⟩
def Atoms.Au : AtomData := ⟨"Au", "Gold", 79, 1, 24, "#ffd123", 166, 11, 6, [2, 8, 18, 32, 18, 1]⟩
def Atoms.Hg : AtomData := ⟨"Hg", "Mercury", 80, 2, 19, "#b8b8d0", 155, 12, 6, [2, 8, 18, 32, 18, 2]⟩
def Atoms.Tl : AtomData := ⟨"Tl", "Thallium", 81, 3, 16, "#a6544d", 196, 13, 6, [2, 8, 18, 32, 18, 3]⟩
def Atoms.Pb : AtomData := ⟨"Pb", "Lead", 82, 4, 18, "#575961", 154, 14, 6, [2, 8, 18, 32, 18, 4]⟩
def Atoms.Bi : AtomData := ⟨"Bi", "Bismuth", 83, 5, 20, "#9e4fb5", 154, 15, 6, [2, 8, 18, 32, 18, 5]⟩
def Atoms.Po : AtomData := ⟨"Po", "Polonium", 84, 6, 20, "#ab5c00", 168, 16, 6, [2, 8, 18, 32, 18, 6]⟩
def Atoms.At : AtomData := ⟨"At", "Astatine", 85, 7, 22, "#754f45", 150, 17, 6, [2, 8, 18, 32, 18, 7]⟩
def Atoms.Rn : AtomData := ⟨"Rn", "Radon", 86, 8, 22, "#428296", 150, 18, 6, [2, 8, 18, 32, 18, 8]⟩
def Atoms.Fr : AtomData := ⟨"Fr", "Francium", 87, 1, 7, "#420066", 260, 1, 7, [2, 8, 18, 32, 18, 8, 1]⟩
def Atoms.Ra : AtomData := ⟨"Ra", "Radium", 88, 2, 9, "#007d00", 221, 2, 7, [2, 8, 18, 32, 18, 8, 2]⟩
def Atoms.Ac : AtomData := ⟨"Ac", "Actinium", 89, 3, 11, "#70abfa", 215, 3, 7, [2, 8, 18, 32, 18, 9, 2]⟩
def Atoms.Th : AtomData := ⟨"Th", "Thorium", 90, 4, 13, "#00baff", 206, 3, 7, [2, 8, 18, 32, 18, 10, 2]⟩
def Atoms.Pa : AtomData := ⟨"Pa", "Protactinium", 91, 5, 15, "#00a1ff", 200, 3, 7, [2, 8, 18, 32, 20, 9, 2]⟩
def Atoms.U : AtomData := ⟨"U", "Uranium", 92, 6, 14, "#008fff", 196, 3, 7, [2, 8, 18, 32, 21, 9, 2]⟩
def Atoms.Np : AtomData := ⟨"Np", "Neptunium", 93, 7, 14, "#0080ff", 190, 3, 7, [2, 8, 18, 32, 22, 9, 2]⟩
def Atoms.Pu : AtomData := ⟨"Pu", "Plutonium", 94, 8, 13, "#006bff", 187, 3, 7, [2, 8, 18, 32, 24, 8, 2]⟩
def Atoms.Am : AtomData := ⟨"Am", "Americium", 95, 9, 13, "#545cf2", 180, 3, 7, [2, 8, 18, 32, 25, 8, 2]⟩
def Atoms.Cm : AtomData := ⟨"Cm", "Curium", 96, 10, 13, "#785ce3", 169, 3, 7, [2, 8, 18, 32, 25, 9, 2]⟩
def Atoms.Bk : AtomData := ⟨"Bk", "Berkelium", 97, 11, 13, "#8a4fe3", 168, 3, 7, [2, 8, 18, 32, 27, 8, 2]⟩
def Atoms.Cf : AtomData := ⟨"Cf", "Californium", 98, 12, 13, "#a136d4", 168, 3, 7, [2, 8, 18, 32, 28, 8, 2]⟩
def Atoms.Es : AtomData := ⟨"Es", "Einsteinium", 99, 13, 13, "#b31fd4", 165, 3, 7, [2, 8, 18, 32, 29, 8, 2]⟩
def Atoms.Fm : AtomData := ⟨"Fm", "Fermium", 100, 14, 13, "#b31fba", 167, 3, 7, [2, 8, 18, 32, 30, 8, 2]⟩
def Atoms.Md : AtomData := ⟨"Md", "Mendelevium", 101, 15, 13, "#b30da6", 173, 3, 7, [2, 8, 18, 32, 31, 8, 2]⟩
def Atoms.No : AtomData := ⟨"No", "Nobelium", 102, 16, 13, "#bd0d87", 176, 3, 7, [2, 8, 18, 32, 32, 8, 2]⟩
def Atoms.Lr : AtomData := ⟨"Lr", "Lawrencium", 103, 17, 13, "#c70066", 161, 3, 7, [2, 8, 18, 32, 32, 8, 3]⟩
def Atoms.Rf : AtomData := ⟨"Rf", "Rutherfordium", 104, 4, 13, "#cc0059", 157, 4, 7, [2, 8, 18, 32, 32, 10, 2]⟩
def Atoms.Db : AtomData := ⟨"Db", "Dubnium", 105, 5, 15, "#d1004f", 149, 5, 7, [2, 8, 18, 32, 32, 11, 2]⟩
def Atoms.Sg : AtomData := ⟨"Sg", "Seaborgium", 106, 6, 19, "#d90045", 143, 6, 7, [2, 8, 18, 32, 32, 12, 2]⟩
def Atoms.Bh : AtomData := ⟨"Bh", "Bohrium", 107, 7, 22, "#e00038", 141, 7, 7, [2, 8, 18, 32, 32, 13, 2]⟩
def Atoms.Hs : AtomData := ⟨"Hs", "Hassium", 108, 8, 23, "#e6002e", 134, 8, 7, [2, 8, 18, 32, 32, 14, 2]⟩
def Atoms.Mt : AtomData := ⟨"Mt", "Meitnerium", 109, 9, 24, "#eb0026", 129, 9, 7, [2, 8, 18, 32, 32, 15, 2]⟩
def Atoms.Ds : AtomData := ⟨"Ds", "Darmstadtium", 110, 10, 28, "#f00021", 128, 10, 7, [2, 8, 18, 32, 32, 17, 1]⟩
def Atoms.Rg : AtomData := ⟨"Rg", "Roentgenium", 111, 1, 29, "#f5001a", 121, 11, 7, [2, 8, 18, 32, 32, 18, 1]⟩
def Atoms.Cn : AtomData := ⟨"Cn", "Copernicium", 112, 2, 30, "#f70014", 122, 12, 7, [2, 8, 18, 32, 32, 18, 2]⟩
def Atoms.Nh : AtomData := ⟨"Nh", "Nihonium", 113, 3, 31, "#fc000a", 136, 13, 7, [2, 8, 18, 32, 32, 18, 3]⟩
def Atoms.Fl : AtomData := ⟨"Fl", "Flerovium", 114, 4, 30, "#ff0000", 143, 14, 7, [2, 8, 18, 32, 32, 18, 4]⟩
def Atoms.Mc : AtomData := ⟨"Mc", "Moscovium", 115, 5, 28, "#ff0d00", 162, 15, 7, [2, 8, 18, 32, 32, 18, 5]⟩
def Atoms.Lv : AtomData := ⟨"Lv", "Livermorium", 116, 6, 27, "#ff1a00", 175, 16, 7, [2, 8, 18, 32, 32, 18, 6]⟩
def Atoms.Ts : AtomData := ⟨"Ts", "Tennessine", 117, 7, 26, "#ff2600", 165, 17, 7, [2, 8, 18, 32, 32, 18, 7]⟩
def Atoms.Og : AtomData := ⟨"Og", "Oganesson", 118, 8, 25, "#ff3300", 157, 18, 7, [2, 8, 18, 32, 32, 18, 8]⟩

/-- The element catalog `ATOMS` of atomData.ts (a record keyed by symbol,
embedded as the list of its entries in source order). -/
def ATOMS : List AtomData := [Atoms.H,
  Atoms.He,
  Atoms.Li,
  Atoms.Be,
  Atoms.B,
  Atoms.C,
  Atoms.N,
  Atoms.O,
  Atoms.F,
  Atoms.Ne,
  Atoms.Na,
  Atoms.Mg,
  Atoms.Al,
  Atoms.Si,
  Atoms.P,
  Atoms.S,
  Atoms.Cl,
  Atoms.Ar,
  Atoms.K,
  Atoms.Ca,
  Atoms.Sc,
  Atoms.Ti,
  Atoms.V,
  Atoms.Cr,
  Atoms.Mn,
  Atoms.Fe,
  Atoms.Co,
  Atoms.Ni,
  Atoms.Cu,
  Atoms.Zn,
  Atoms.Ga,
  Atoms.Ge,
  Atoms.As,
  Atoms.Se,
  Atoms.Br,
  Atoms.Kr,
  Atoms.Rb,
  Atoms.Sr,
  Atoms.Y,
  Atoms.Zr,
  Atoms.Nb,
  Atoms.Mo,
  Atoms.Tc,
  Atoms.Ru,
  Atoms.Rh,
  Atoms.Pd,
  Atoms.Ag,
  Atoms.Cd,
  Atoms.In,
  Atoms.Sn,
  Atoms.Sb,
  Atoms.Te,
  Atoms.I,
  Atoms.Xe,
  Atoms.Cs,
  Atoms.Ba,
  Atoms.La,
  Atoms.Ce,
  Atoms.Pr,
  Atoms.Nd,
  Atoms.Pm,
  Atoms.Sm,
  Atoms.Eu,
  Atoms.Gd,
  Atoms.Tb,
  Atoms.Dy,
  Atoms.Ho,
  Atoms.Er,
  Atoms.Tm,
  Atoms.Yb,
  Atoms.Lu,
  Atoms.Hf,
  Atoms.Ta,
  Atoms.W,
  Atoms.Re,
  Atoms.Os,
  Atoms.Ir,
  Atoms.Pt,
  Atoms.Au,
  Atoms.Hg,
  Atoms.Tl,
  Atoms.Pb,
  Atoms.Bi,
  Atoms.Po,
  Atoms.At,
  Atoms.Rn,
  Atoms.Fr,
  Atoms.Ra,
  Atoms.Ac,
  Atoms.Th,
  Atoms.Pa,
  Atoms.U,
  Atoms.Np,
  Atoms.Pu,
  Atoms.Am,
  Atoms.Cm,
  Atoms.Bk,
  Atoms.Cf,
  Atoms.Es,
  Atoms.Fm,
  Atoms.Md,
  Atoms.No,
  Atoms.Lr,
  Atoms.Rf,
  Atoms.Db,
  Atoms.Sg,
  Atoms.Bh,
  Atoms.Hs,
  Atoms.Mt,
  Atoms.Ds,
  Atoms.Rg,
  Atoms.Cn,
  Atoms.Nh,
  Atoms.Fl,
  Atoms.Mc,
  Atoms.Lv,
  Atoms.Ts,
  Atoms.Og]

/-- Molecule catalog entry, from the element type of `MOLECULES`. -/
structure Molecule where
  formula : String
  atoms : List String
  bondType : BondType
  name : String
deriving DecidableEq

/-- The molecule catalog `MOLECULES` of atomData.ts.  Note every formula uses
the Unicode subscript digit (e.g. `"H₂O"`), never the ASCII `"H2O"`. -/
def MOLECULES : List Molecule := [
  ⟨"H₂", ["H", "H"], .covalent, "Hydrogen Gas"⟩,
  ⟨"O₂", ["O", "O"], .covalent, "Oxygen Gas"⟩,
  ⟨"H₂O", ["H", "O", "H"], .covalent, "Water"⟩,
  ⟨"CO₂", ["C", "O", "O"], .covalent, "Carbon Dioxide"⟩,
  ⟨"NaCl", ["Na", "Cl"], .ionic, "Sodium Chloride"⟩,
  ⟨"CH₄", ["C", "H", "H", "H", "H"], .covalent, "Methane"⟩,
  ⟨"NH₃", ["N", "H", "H", "H"], .covalent, "Ammonia"⟩,
  ⟨"HCl", ["H", "Cl"], .covalent, "Hydrogen Chloride"⟩,
  ⟨"H₂S", ["H", "S", "H"], .covalent, "Hydrogen Sulfide"⟩,
  ⟨"SO₂", ["S", "O", "O"], .covalent, "Sulfur Dioxide"⟩]

/-- JavaScript `Math.abs` on an exact-decimal value (and, applied to a scaled
binary64 value, on a double: negation of a double is exact). -/
def mathAbs (x : ℤ) : ℤ := if x < 0 then -x else x

/-! The source evaluates `Math.abs(en1 - en2) > 1.7` in IEEE-754 binary64
arithmetic, and on pairs whose exact decimal difference is 1.7 the rounded
result can land strictly above the double of `1.7` (for example
`4.0 - 2.3`).  To embed `getBondType` faithfully, the binary64 values and
the correctly rounded subtraction are modelled exactly: every double in
range is an integer multiple of 2⁻⁵⁶, so doubles are carried as integers at
that scale and rounding (to nearest, ties to even) is integer arithmetic. -/

/-- Fuel-driven binary logarithm: `natLog2Fuel f n` equals `⌊log₂ n⌋` for
every `1 ≤ n < 2^f` (structural recursion on the fuel, so it evaluates in
the kernel). -/
def natLog2Fuel : ℕ → ℕ → ℕ
  | 0, _ => 0
  | fuel + 1, n => if 2 ≤ n then natLog2Fuel fuel (n / 2) + 1 else 0

/-- Floor of log₂ on ℕ (with 0 mapped to 0); 128 bits of fuel cover every
value arising from the catalog's scaled doubles. -/
def natLog2 (n : ℕ) : ℕ := natLog2Fuel 128 n

/-- Floor of log₂ of the positive rational `p / q` (for `p, q ≥ 1`), by
integer comparison: with `a = ⌊log₂ p⌋` and `b = ⌊log₂ q⌋` the answer is
`a - b` or `a - b - 1`. -/
def ratLog2 (p q : ℕ) : ℤ :=
  if q * 2 ^ natLog2 p ≤ p * 2 ^ natLog2 q then (natLog2 p : ℤ) - natLog2 q
  else (natLog2 p : ℤ) - natLog2 q - 1

/-- The binary64 (IEEE-754 double) value nearest to `n / 10`, ties to even,
returned as an integer multiple of 2⁻⁵⁶: this is the double a JavaScript
engine holds for a one-decimal literal.  For `|n| ≥ 1` the exponent is at
least −4, so the scaled value is an integer (a double with exponent `e` and
53-bit mantissa `m` is `m·2^(e-52)`, i.e. `m·2^(e+4)` in 2⁻⁵⁶ units). -/
def doubleOfTenths (n : ℤ) : ℤ :=
  if n = 0 then 0
  else
    let e := ratLog2 n.natAbs 10
    let N := n.natAbs * 2 ^ (52 - e).toNat
    let D := 10 * 2 ^ (e - 52).toNat
    let m := N / D
    let r := N % D
    let m2 := if 2 * r < D then m else if D < 2 * r then m + 1
              else if m % 2 = 0 then m else m + 1
    (if n < 0 then -1 else 1) * (m2 : ℤ) * 2 ^ (e + 4).toNat

/-- IEEE-754 binary64 subtraction of two doubles given as integer multiples
of 2⁻⁵⁶: the exact difference rounded to the nearest double (ties to even).
With `⌊log₂ |d|⌋ = k + 52` in scaled units, the mantissa step is `2^k`
scaled units; for `k ≤ 0` the difference is already representable. -/
def jsSubScaled (x y : ℤ) : ℤ :=
  let d := x - y
  if d = 0 then 0
  else
    let k := (natLog2 d.natAbs : ℤ) - 52
    if k ≤ 0 then d
    else
      let s := 2 ^ k.toNat
      let m := d.natAbs / s
      let r := d.natAbs % s
      let m2 := if 2 * r < s then m else if s < 2 * r then m + 1
                else if m % 2 = 0 then m else m + 1
      (if d < 0 then -1 else 1) * (m2 : ℤ) * (s : ℤ)

/-- Embedding of `getBondType` from atomData.ts:
`Math.abs(atom1.electronegativity - atom2.electronegativity) > 1.7`, ionic
when true, covalent otherwise — computed as the JavaScript engine does: the
two electronegativities (exact tenths) are taken as their binary64 values,
subtracted with correct rounding, and the absolute value (exact on doubles)
is compared with the binary64 value of the literal `1.7`. -/
def getBondType (atom1 atom2 : AtomData) : BondType :=
  if mathAbs (jsSubScaled (doubleOfTenths atom1.electronegativity)
      (doubleOfTenths atom2.electronegativity)) > doubleOfTenths 17
  then .ionic else .covalent

/-- The `nobleGases` list inside `canBond`. -/
def nobleGases : List String := ["He", "Ne", "Ar", "Kr", "Xe", "Rn", "Og"]

/-- The `commonHydrogenBonds` list inside `canBond`. -/
def commonHydrogenBonds : List String := ["C", "N", "O", "F", "S", "Cl", "Br", "I"]

/-- The `carbonBonds` list inside `canBond`. -/
def carbonBonds : List String := ["C", "N", "O", "F", "S", "Cl", "Br", "I", "Si", "P"]

/-- The `diatomic` pair list inside `canBond`. -/
def diatomic : List (String × String) :=
  [("H", "H"), ("O", "O"), ("N", "N"), ("F", "F"), ("Cl", "Cl"), ("Br", "Br"), ("I", "I")]

/-- The `metals` list inside `canBond`. -/
def metals : List String :=
  ["Li", "Na", "K", "Rb", "Cs", "Fr", "Mg", "Ca", "Sr", "Ba", "Ra", "Al", "Ga",
   "In", "Sn", "Pb", "Bi", "Sc", "Ti", "V", "Cr", "Mn", "Fe", "Co", "Ni", "Cu",
   "Zn", "Y", "Zr", "Nb", "Mo", "Tc", "Ru", "Rh", "Pd", "Ag", "Cd", "Hf", "Ta",
   "W", "Re", "Os", "Ir", "Pt", "Au", "Hg", "Tl"]

/-- The `nonmetals` list inside `canBond`. -/
def nonmetals : List String :=
  ["F", "Cl", "Br", "I", "At", "O", "S", "Se", "Te", "Po", "N", "P", "As", "Sb", "Bi"]

/-- The `covalentPairs` list inside `canBond`. -/
def covalentPairs : List (String × String) :=
  [("N", "O"), ("N", "F"), ("N", "Cl"),
   ("O", "F"), ("O", "Cl"), ("O", "S"),
   ("S", "F"), ("S", "Cl"), ("S", "Br"),
   ("P", "O"), ("P", "F"), ("P", "Cl"),
   ("Si", "O"), ("Si", "F"), ("Si", "Cl"),
   ("Se", "O"), ("Te", "O"), ("As", "O")]

/-- The unordered-pair test `l.some(([a,b]) => (a===s1 && b===s2) || (a===s2 && b===s1))`
used for the `diatomic` and `covalentPairs` lists in `canBond`. -/
def pairMatches (l : List (String × String)) (symbol1 symbol2 : String) : Bool :=
  l.any fun p => (p.1 == symbol1 && p.2 == symbol2) || (p.1 == symbol2 && p.2 == symbol1)

/-- Embedding of `canBond` from atomData.ts, the layered eligibility cascade.
The final fallback compares `Math.abs(en1 - en2) <= 3.0`; it is embedded as
the exact comparison in tenths, which agrees with the binary64 evaluation on
every pair of catalog electronegativities (see the header comment). -/
def canBond (atom1 atom2 : AtomData) : Bool :=
  let symbol1 := atom1.symbol
  let symbol2 := atom2.symbol
  if nobleGases.contains symbol1 || nobleGases.contains symbol2 then false
  else if symbol1 == "H" || symbol2 == "H" then
    let nonHydrogen := if symbol1 == "H" then symbol2 else symbol1
    nonHydrogen == "H" || commonHydrogenBonds.contains nonHydrogen
  else if symbol1 == "C" || symbol2 == "C" then
    let nonCarbon := if symbol1 == "C" then symbol2 else symbol1
    carbonBonds.contains nonCarbon
  else if pairMatches diatomic symbol1 symbol2 then true
  else if (metals.contains symbol1 && nonmetals.contains symbol2) ||
          (metals.contains symbol2 && nonmetals.contains symbol1) then true
  else if pairMatches covalentPairs symbol1 symbol2 then true
  else
    -- `electronegativityDiff <= 3.0 && en1 > 0 && en2 > 0`, in tenths
    decide (mathAbs (atom1.electronegativity - atom2.electronegativity) ≤ 30) &&
    decide (atom1.electronegativity > 0) && decide (atom2.electronegativity > 0)

/-- The `maxBondsMap` table inside `getMaxBonds` of atomData.ts. -/
def maxBondsMapData : List (String × Nat) := [("H", 1), ("He", 0), ("Li", 1), ("Be", 2), ("B", 3), ("C", 4), ("N", 3), ("O", 2), ("F", 1), ("Ne", 0), ("Na", 1), ("Mg", 2), ("Al", 3), ("Si", 4), ("P", 5), ("S", 6), ("Cl", 1), ("Ar", 0), ("K", 1), ("Ca", 2), ("Sc", 3), ("Ti", 4), ("V", 5), ("Cr", 6), ("Mn", 7), ("Fe", 6), ("Co", 3), ("Ni", 2), ("Cu", 2), ("Zn", 2), ("Ga", 3), ("Ge", 4), ("As", 5), ("Se", 6), ("Br", 1), ("Kr", 0), ("Rb", 1), ("Sr", 2), ("Y", 3), ("Zr", 4), ("Nb", 5), ("Mo", 6), ("Tc", 7), ("Ru", 8), ("Rh", 3), ("Pd", 2), ("Ag", 1), ("Cd", 2), ("In", 3), ("Sn", 4), ("Sb", 5), ("Te", 6), ("I", 1), ("Xe", 0), ("Cs", 1), ("Ba", 2), ("La", 3), ("Hf", 4), ("Ta", 5), ("W", 6), ("Re", 7), ("Os", 8), ("Ir", 3), ("Pt", 4), ("Au", 3), ("Hg", 2), ("Tl", 3), ("Pb", 4), ("Bi", 5), ("Po", 6), ("At", 1), ("Rn", 0), ("Fr", 1), ("Ra", 2), ("Ac", 3), ("Rf", 4), ("Db", 5), ("Sg", 6), ("Bh", 7), ("Hs", 8), ("Mt", 3), ("Ds", 2), ("Rg", 1), ("Cn", 2), ("Nh", 3), ("Fl", 4), ("Mc", 5), ("Lv", 6), ("Ts", 1), ("Og", 0)]

/-- JavaScript `x || d` on numbers: `0` and `undefined` are falsy. -/
def jsOrDefault (v : Option Nat) (d : Nat) : Nat :=
  match v with
  | some n => if n = 0 then d else n
  | none => d

/-- Embedding of `getMaxBonds` from atomData.ts: `0` when the symbol is not in the element
catalog, otherwise `maxBondsMap[s] || 1`. -/
def getMaxBonds (atomSymbol : String) : Nat :=
  match ATOMS.find? (fun a => a.symbol == atomSymbol) with
  | none => 0
  | some _ => jsOrDefault (maxBondsMapData.lookup atomSymbol) 1

/-- The local `maxBonds` table of `calculateAvailableBonds` in the main scene
component (part_006). -/
def maxBondsTable : List (String × Nat) :=
  [("H", 1), ("O", 2), ("N", 3), ("C", 4), ("F", 1), ("Cl", 1), ("Na", 1), ("Mg", 2)]

/-- The lookup `maxBonds[atomData.symbol] || 1` in `calculateAvailableBonds`. -/
def maxBondsOf (symbol : String) : Nat :=
  jsOrDefault (maxBondsTable.lookup symbol) 1

/-- Embedding of `calculateAvailableBonds` from part_006:
`Math.max(0, max - existingBonds)` over the local `maxBonds` table. -/
def calculateAvailableBonds (atomData : AtomData) (existingBonds : ℤ) : ℤ :=
  max 0 ((maxBondsOf atomData.symbol : ℤ) - existingBonds)

/-- A placed atom instance, from `interface PlacedAtom` in part_006.
Scene coordinates are embedded as integers (see the header comment). -/
structure PlacedAtom where
  id : String
  symbol : String
  position : ℤ × ℤ × ℤ
  atomData : AtomData
  availableBonds : ℤ
deriving DecidableEq

/-- A bond instance, from `interface MolecularBond` in part_006. -/
structure MolecularBond where
  id : String
  atom1Id : String
  atom2Id : String
  type : BondType
  strength : Nat
deriving DecidableEq

/-- The mutable collections owned by the scene component that `createBond`
reads and writes: the `placedAtoms`, `bonds` and `score` React states. -/
structure GameState where
  placedAtoms : List PlacedAtom
  bonds : List MolecularBond
  score : ℤ
deriving DecidableEq

/-- The duplicate test used in `createBond`:
`(bond.atom1Id === atom1Id && bond.atom2Id === atom2Id) ||
 (bond.atom1Id === atom2Id && bond.atom2Id === atom1Id)`. -/
def bondBetween (atom1Id atom2Id : String) (b : MolecularBond) : Bool :=
  (b.atom1Id == atom1Id && b.atom2Id == atom2Id) ||
  (b.atom1Id == atom2Id && b.atom2Id == atom1Id)

/-- The squared Euclidean distance between two positions.  The source compares
`Math.sqrt(Σ diff²) > 4`; over nonnegative values this is `Σ diff² > 16`. -/
def distSq (p q : ℤ × ℤ × ℤ) : ℤ :=
  (p.1 - q.1) * (p.1 - q.1) + (p.2.1 - q.2.1) * (p.2.1 - q.2.1) +
  (p.2.2 - q.2.2) * (p.2.2 - q.2.2)

/-- Outcome of `createBond`, one constructor per `showMessage` path. -/
inductive BondOutcome where
  | invalidAtoms
  | bondExists
  | atomFull (symbol : String)
  | cannotBond
  | tooFar
  | success (t : BondType)
deriving DecidableEq

/-- Returns `true` exactly on the acceptance path of `createBond`. -/
def BondOutcome.isSuccess : BondOutcome → Bool
  | .success _ => true
  | _ => false

/-- Embedding of `createBond` from part_006, as a pure transition on `GameState`.
The fresh bond identifier (``bond-${Date.now()}-${Math.random()}`` in the
source) is passed in as `newBondId`.  Every rejection path of the source
returns before any `setBonds`/`setPlacedAtoms`/`setScore` call, so those
paths return the input state unchanged; the acceptance path appends the new
bond, recomputes `availableBonds` for the two endpoints from the old bond
list plus one, and adds 15 (ionic) or 10 (covalent) to the score. -/
def createBond (st : GameState) (atom1Id atom2Id newBondId : String) :
    BondOutcome × GameState :=
  match st.placedAtoms.find? (fun a => a.id == atom1Id),
        st.placedAtoms.find? (fun a => a.id == atom2Id) with
  | some atom1, some atom2 =>
    if st.bonds.any (bondBetween atom1Id atom2Id) then (.bondExists, st)
    else if atom1.availableBonds == 0 then (.atomFull atom1.symbol, st)
    else if atom2.availableBonds == 0 then (.atomFull atom2.symbol, st)
    else if !canBond atom1.atomData atom2.atomData then (.cannotBond, st)
    else if distSq atom1.position atom2.position > 16 then (.tooFar, st)
    else
      let bondType := getBondType atom1.atomData atom2.atomData
      let newBond : MolecularBond := ⟨newBondId, atom1Id, atom2Id, bondType, 1⟩
      let newAtoms := st.placedAtoms.map fun atom =>
        if atom.id == atom1Id || atom.id == atom2Id then
          let existingBonds :=
            (st.bonds.filter fun b => b.atom1Id == atom.id || b.atom2Id == atom.id).length + 1
          { atom with availableBonds := calculateAvailableBonds atom.atomData existingBonds }
        else atom
      (.success bondType,
       ⟨newAtoms, st.bonds ++ [newBond],
        st.score + (if bondType == .ionic then 15 else 10)⟩)
  | _, _ => (.invalidAtoms, st)

/-- The bonding-mode right-click branch of `handleAtomClick` in part_006
(reached with `bondingMode` on and `dragging` null): with no atom selected
yet, clicking an atom with a free slot selects it; clicking the already
selected atom cancels bonding; clicking a different atom calls `createBond`
and clears the selection.  Returns the new `firstAtomForBond` and state. -/
def handleBondClick (st : GameState) (firstAtomForBond : Option String)
    (atomId newBondId : String) : Option String × GameState :=
  match firstAtomForBond with
  | none =>
    match st.placedAtoms.find? (fun a => a.id == atomId) with
    | some atom => if atom.availableBonds > 0 then (some atomId, st) else (none, st)
    | none => (none, st)
  | some firstId =>
    if firstId == atomId then (none, st)
    else (none, (createBond st firstId atomId newBondId).2)

/-- Record tables `atomCounts` / `placedCounts` in `checkMoleculeCompletion` are JavaScript
records mapping a symbol to its occurrence count; here a record is embedded
by the underlying symbol list, `.count` giving the count of one symbol and
`.dedup` giving its key set. -/
def hasExactAtoms (templateAtoms placedSymbols : List String) : Bool :=
  (templateAtoms.dedup.all fun s => placedSymbols.count s == templateAtoms.count s)
  && placedSymbols.dedup.length == templateAtoms.dedup.length

/-- The bond-count condition of `checkMoleculeCompletion`: a special case
guarded by `molecule.formula === 'H2O'` (ASCII digit — while the catalog
formulas use the Unicode subscript `"H₂O"`), otherwise
`currentBonds.length === molecule.atoms.length - 1`. -/
def hasCorrectBonds (molecule : Molecule) (currentAtoms : List PlacedAtom)
    (currentBonds : List MolecularBond) : Bool :=
  if molecule.formula == "H2O" then
    match currentAtoms.find? (fun a => a.symbol == "O") with
    | some oxygenAtom =>
      if (currentAtoms.filter fun a => a.symbol == "H").length == 2 then
        (currentBonds.filter fun b =>
          b.atom1Id == oxygenAtom.id || b.atom2Id == oxygenAtom.id).length == 2
      else false
    | none => false
  else
    (currentBonds.length : ℤ) == (molecule.atoms.length : ℤ) - 1

/-- Embedding of `checkMoleculeCompletion` from part_006, as the list of templates
newly reported complete.  The source loops over `MOLECULES` and fires for
each template satisfying the exact-composition check, the bond-count check
and `!builtMolecules.includes(molecule.formula)`; the `includes` test reads
the pre-call `builtMolecules` value for every template, so the fired set is
a filter over the catalog. -/
def checkMoleculeCompletion (currentAtoms : List PlacedAtom)
    (currentBonds : List MolecularBond) (builtMolecules : List String) :
    List Molecule :=
  MOLECULES.filter fun molecule =>
    hasExactAtoms molecule.atoms (currentAtoms.map (·.symbol))
    && hasCorrectBonds molecule currentAtoms currentBonds
    && !(builtMolecules.contains molecule.formula)

/-! Helper lemmas -/

theorem mathAbs_eq_abs (x : ℤ) : mathAbs x = |x| := by
  unfold mathAbs
  rcases lt_or_ge x 0 with h | h
  · rw [if_pos h, abs_of_neg h]
  · rw [if_neg (not_lt.mpr h), abs_of_nonneg h]

theorem mathAbs_sub_comm (x y : ℤ) : mathAbs (x - y) = mathAbs (y - x) := by
  rw [mathAbs_eq_abs, mathAbs_eq_abs, abs_sub_comm]

theorem pairMatches_swap (l : List (String × String)) (s1 s2 : String) :
    pairMatches l s1 s2 = pairMatches l s2 s1 := by
  unfold pairMatches
  induction l with
  | nil => rfl
  | cons p l ih =>
    simp only [List.any_cons, ih]
    rw [Bool.or_comm (p.1 == s1 && p.2 == s2) (p.1 == s2 && p.2 == s1)]

theorem bondBetween_swap (x y : String) (b : MolecularBond) :
    bondBetween x y b = bondBetween y x b := by
  unfold bondBetween
  rw [Bool.or_comm]

theorem any_bondBetween_swap (l : List MolecularBond) (x y : String) :
    l.any (bondBetween x y) = l.any (bondBetween y x) := by
  induction l with
  | nil => rfl
  | cons b l ih => simp only [List.any_cons, ih, bondBetween_swap x y b]

theorem canBond_swap (a b : AtomData) : canBond a b = canBond b a := by
  simp only [canBond]
  by_cases hHa : a.symbol = "H" <;> by_cases hHb : b.symbol = "H" <;>
    by_cases hCa : a.symbol = "C" <;> by_cases hCb : b.symbol = "C" <;>
      simp_all [pairMatches_swap, mathAbs_sub_comm, Bool.or_comm, Bool.and_comm,
        Bool.or_left_comm, Bool.and_left_comm]

theorem hasExactAtoms_iff (tmpl placed : List String) :
    hasExactAtoms tmpl placed = true ↔ ∀ s, placed.count s = tmpl.count s := by
  unfold hasExactAtoms
  simp only [Bool.and_eq_true, List.all_eq_true, beq_iff_eq]
  constructor
  · rintro ⟨h1, h2⟩ s
    have hsub : tmpl.dedup ⊆ placed.dedup := by
      intro x hx
      have hxt : 0 < tmpl.count x := List.count_pos_iff.mpr (List.mem_dedup.mp hx)
      have hxp : 0 < placed.count x := by rw [h1 x hx]; exact hxt
      exact List.mem_dedup.mpr (List.count_pos_iff.mp hxp)
    have hperm : List.Perm tmpl.dedup placed.dedup :=
      ((List.nodup_dedup tmpl).subperm hsub).perm_of_length_le (le_of_eq h2)
    by_cases hst : s ∈ tmpl
    · exact h1 s (List.mem_dedup.mpr hst)
    · have hsp : s ∉ placed := fun hp =>
        hst (List.mem_dedup.mp (hperm.mem_iff.mpr (List.mem_dedup.mpr hp)))
      rw [List.count_eq_zero_of_not_mem hsp, List.count_eq_zero_of_not_mem hst]
  · intro h
    have hperm : List.Perm placed.dedup tmpl.dedup := by
      rw [List.perm_ext_iff_of_nodup (List.nodup_dedup placed) (List.nodup_dedup tmpl)]
      intro x
      rw [List.mem_dedup, List.mem_dedup, ← List.count_pos_iff, ← List.count_pos_iff, h x]
    exact ⟨fun s _ => h s, hperm.length_eq⟩

theorem hasCorrectBonds_nonwater (m : Molecule) (currentAtoms : List PlacedAtom)
    (currentBonds : List MolecularBond) (hm : m ∈ MOLECULES) :
    hasCorrectBonds m currentAtoms currentBonds
      = ((currentBonds.length : ℤ) == (m.atoms.length : ℤ) - 1) := by
  have hascii : ∀ m' ∈ MOLECULES, (m'.formula == "H2O") = false := by decide
  unfold hasCorrectBonds
  rw [hascii m hm]
  simp

theorem createBond_success_or_unchanged (st : GameState)
    (atom1Id atom2Id newBondId : String) :
    (createBond st atom1Id atom2Id newBondId).1.isSuccess = true
    ∨ (createBond st atom1Id atom2Id newBondId).2 = st := by
  unfold createBond
  cases hf1 : st.placedAtoms.find? fun a => a.id == atom1Id with
  | none => right; rfl
  | some a1 =>
    cases hf2 : st.placedAtoms.find? fun a => a.id == atom2Id with
    | none => right; rfl
    | some a2 =>
      dsimp only
      split_ifs <;> simp [BondOutcome.isSuccess]

/-! Concrete scenes used as failing inputs and witnesses -/

/-- A scene with composition {H:2, O:1}: `a1`, `a2` are Hydrogens, `a3` is the
Oxygen. -/
def waterSceneAtoms : List PlacedAtom :=
  [⟨"a1", "H", (0, 0, 0), Atoms.H, 1⟩,
   ⟨"a2", "H", (1, 0, 0), Atoms.H, 1⟩,
   ⟨"a3", "O", (0, 1, 0), Atoms.O, 2⟩]

/-- Two bonds, `a1`–`a2` and `a1`–`a3`: the Oxygen `a3` carries only one bond. -/
def waterSceneBonds : List MolecularBond :=
  [⟨"b1", "a1", "a2", .covalent, 1⟩, ⟨"b2", "a1", "a3", .covalent, 1⟩]

/-- The first catalog template, Hydrogen Gas. -/
def molHydrogenGas : Molecule := ⟨"H₂", ["H", "H"], .covalent, "Hydrogen Gas"⟩

/-- Two placed Hydrogens. -/
def twoHydrogenAtoms : List PlacedAtom :=
  [⟨"h1", "H", (0, 0, 0), Atoms.H, 1⟩, ⟨"h2", "H", (1, 0, 0), Atoms.H, 1⟩]

/-- One bond joining the two placed Hydrogens. -/
def oneHydrogenBond : List MolecularBond := [⟨"b1", "h1", "h2", .covalent, 1⟩]

/-- Two bonded Hydrogens with no free bond slots and an existing bond `b0`. -/
def duplicateScene : GameState :=
  ⟨[⟨"h1", "H", (0, 0, 0), Atoms.H, 0⟩, ⟨"h2", "H", (1, 0, 0), Atoms.H, 0⟩],
   [⟨"b0", "h1", "h2", .covalent, 1⟩], 10⟩

/-- A single placed Hydrogen with one free bond slot. -/
def selfBondScene : GameState := ⟨[⟨"h1", "H", (0, 0, 0), Atoms.H, 1⟩], [], 0⟩

/-- A scene with no atoms at all. -/
def emptyScene : GameState := ⟨[], [], 0⟩

/-! Claims -/

/-- C1 — evaluation of the code at the failing input.  The claim (and the
spec) say the water template's bond-count condition requires the Oxygen
instance to have exactly 2 bonds.  The checker's special branch is guarded by
`molecule.formula === 'H2O'` (ASCII digit) while the catalog formula is
`"H₂O"` (Unicode subscript), so the branch never fires for any catalog
template — third conjunct — and water falls through to the general
`bonds == atoms − 1` rule.  Consequently a {H:2, O:1} scene whose two bonds
are `a1`–`a2` and `a1`–`a3` is reported as completing Water (first conjunct)
although the Oxygen `a3` carries only one bond (second conjunct),
contradicting the claim; the dead branch's own comment ("Water: O should have
2 bonds") shows the claim matches the intent. -/
theorem checkCompletion_water_lowOxygenBonds :
    (checkMoleculeCompletion waterSceneAtoms waterSceneBonds []).map Molecule.name = ["Water"]
    ∧ (waterSceneBonds.filter fun b => b.atom1Id == "a3" || b.atom2Id == "a3").length = 1
    ∧ MOLECULES.all (fun m => m.formula != "H2O") = true := by decide

/-- C2: for every catalog template other than water, the checker reports
it as newly completed iff the placed symbol multiset equals the template's
multiset exactly, the total bond count equals (number of template atoms) − 1,
and the formula is not already in the completed set; and no reported template
is already in the completed set. -/
theorem checkCompletion_nonwater_iff (m : Molecule) (currentAtoms : List PlacedAtom)
    (currentBonds : List MolecularBond) (builtMolecules : List String)
    (hm : m ∈ MOLECULES) (hw : m.formula ≠ "H₂O") :
    (m ∈ checkMoleculeCompletion currentAtoms currentBonds builtMolecules ↔
      ((∀ s, (currentAtoms.map PlacedAtom.symbol).count s = m.atoms.count s)
        ∧ (currentBonds.length : ℤ) = (m.atoms.length : ℤ) - 1
        ∧ m.formula ∉ builtMolecules))
    ∧ ∀ m' ∈ checkMoleculeCompletion currentAtoms currentBonds builtMolecules,
        m'.formula ∉ builtMolecules := by
  constructor
  · rw [checkMoleculeCompletion, List.mem_filter]
    constructor
    · rintro ⟨hmem, hp⟩
      rw [Bool.and_eq_true, Bool.and_eq_true] at hp
      obtain ⟨⟨hexact, hbonds⟩, hbuilt⟩ := hp
      rw [hasCorrectBonds_nonwater m currentAtoms currentBonds hmem] at hbonds
      refine ⟨(hasExactAtoms_iff _ _).mp hexact, beq_iff_eq.mp hbonds, ?_⟩
      simpa using hbuilt
    · rintro ⟨hcount, hbonds, hbuilt⟩
      refine ⟨hm, ?_⟩
      rw [Bool.and_eq_true, Bool.and_eq_true]
      refine ⟨⟨(hasExactAtoms_iff _ _).mpr hcount, ?_⟩, ?_⟩
      · rw [hasCorrectBonds_nonwater m currentAtoms currentBonds hm]
        exact beq_iff_eq.mpr hbonds
      · simpa using hbuilt
  · intro m' hm'
    rw [checkMoleculeCompletion, List.mem_filter] at hm'
    obtain ⟨-, hp⟩ := hm'
    rw [Bool.and_eq_true, Bool.and_eq_true] at hp
    simpa using hp.2

theorem checkCompletion_nonwater_iff_witness :
    (molHydrogenGas ∈ checkMoleculeCompletion twoHydrogenAtoms oneHydrogenBond ["NaCl"] ↔
      ((∀ s, (twoHydrogenAtoms.map PlacedAtom.symbol).count s = molHydrogenGas.atoms.count s)
        ∧ (oneHydrogenBond.length : ℤ) = (molHydrogenGas.atoms.length : ℤ) - 1
        ∧ molHydrogenGas.formula ∉ ["NaCl"]))
    ∧ ∀ m' ∈ checkMoleculeCompletion twoHydrogenAtoms oneHydrogenBond ["NaCl"],
        m'.formula ∉ ["NaCl"] :=
  checkCompletion_nonwater_iff molHydrogenGas twoHydrogenAtoms oneHydrogenBond ["NaCl"]
    (by decide) (by decide)

/-- C3: `canBond` is symmetric for every pair of elements in the catalog. -/
theorem canBond_symm (a b : AtomData) (ha : a ∈ ATOMS) (hb : b ∈ ATOMS) :
    canBond a b = canBond b a :=
  canBond_swap a b

theorem canBond_symm_witness : canBond Atoms.H Atoms.O = canBond Atoms.O Atoms.H :=
  canBond_symm Atoms.H Atoms.O (by decide) (by decide)

/-- C4: `canBond` returns false whenever either argument's symbol is in
the fixed noble-gas set {He, Ne, Ar, Kr, Xe, Rn, Og}, regardless of the other
argument. -/
theorem canBond_noble_false (a b : AtomData)
    (h : a.symbol ∈ nobleGases ∨ b.symbol ∈ nobleGases) :
    canBond a b = false := by
  have hg : (nobleGases.contains a.symbol || nobleGases.contains b.symbol) = true := by
    rcases h with h | h <;> simp [h]
  simp only [canBond]
  rw [hg]
  rfl

theorem canBond_noble_false_witness : canBond Atoms.He Atoms.H = false :=
  canBond_noble_false Atoms.He Atoms.H (Or.inl (by decide))

theorem getBondType_cases (a b : AtomData) :
    (getBondType a b = .ionic ↔
      mathAbs (jsSubScaled (doubleOfTenths a.electronegativity)
        (doubleOfTenths b.electronegativity)) > doubleOfTenths 17)
    ∧ (getBondType a b = .covalent ↔
      ¬ mathAbs (jsSubScaled (doubleOfTenths a.electronegativity)
        (doubleOfTenths b.electronegativity)) > doubleOfTenths 17) := by
  unfold getBondType
  by_cases h : mathAbs (jsSubScaled (doubleOfTenths a.electronegativity)
      (doubleOfTenths b.electronegativity)) > doubleOfTenths 17
  · rw [if_pos h]
    exact ⟨⟨fun _ => h, fun _ => rfl⟩,
      ⟨fun hc => BondType.noConfusion hc, fun hn => absurd h hn⟩⟩
  · rw [if_neg h]
    exact ⟨⟨fun hc => BondType.noConfusion hc, fun hgt => absurd hgt h⟩,
      ⟨fun _ => h, fun _ => rfl⟩⟩

set_option maxRecDepth 8000 in
set_option maxHeartbeats 1600000 in
theorem jsDiff_exact_agree : ∀ x : ℕ, x < 41 → ∀ y : ℕ, y < 41 →
    mathAbs ((x : ℤ) - (y : ℤ)) ≠ 17 →
    (mathAbs (jsSubScaled (doubleOfTenths (x : ℤ)) (doubleOfTenths (y : ℤ)))
        > doubleOfTenths 17
      ↔ mathAbs ((x : ℤ) - (y : ℤ)) > 17) := by decide

/-- C5 — counterexample to the claim as stated: the exact electronegativity
difference of Fluorine (4.0) and Rhodium (2.3) is exactly 1.7 (17 tenths),
which does not exceed 1.7, so the claimed rule requires covalent; but the
source subtracts binary64 doubles, `4.0 - 2.3` rounds to a value strictly
above the double `1.7`, and `getBondType` returns ionic. -/
theorem getBondType_boundary_ionic :
    getBondType Atoms.F Atoms.Rh = .ionic
    ∧ mathAbs (Atoms.F.electronegativity - Atoms.Rh.electronegativity) = 17 := by
  decide

/-- C5 — amended claim: `getBondType` compares in binary64 floating point.
For every pair of electronegativities in the catalog's range (0 to 4.0 in
exact tenths) whose exact difference is not exactly 1.7, the decimal rule
holds: ionic iff the difference exceeds 1.7, covalent otherwise; pairs at
exactly 1.7 are decided by the rounded doubles and can come out ionic (see
the counterexample).  In particular Na/Cl (difference 2.1 = 21 tenths) is
ionic and H/O (difference 1.4 = 14 tenths) is covalent. -/
theorem getBondType_spec_amended :
    (∀ a b : AtomData,
      0 ≤ a.electronegativity → a.electronegativity ≤ 40 →
      0 ≤ b.electronegativity → b.electronegativity ≤ 40 →
      mathAbs (a.electronegativity - b.electronegativity) ≠ 17 →
      ((getBondType a b = .ionic ↔
          mathAbs (a.electronegativity - b.electronegativity) > 17)
        ∧ (getBondType a b = .covalent ↔
          mathAbs (a.electronegativity - b.electronegativity) ≤ 17)))
    ∧ getBondType Atoms.Na Atoms.Cl = .ionic
    ∧ mathAbs (Atoms.Na.electronegativity - Atoms.Cl.electronegativity) = 21
    ∧ getBondType Atoms.H Atoms.O = .covalent
    ∧ mathAbs (Atoms.H.electronegativity - Atoms.O.electronegativity) = 14 := by
  refine ⟨?_, by decide, by decide, by decide, by decide⟩
  intro a b ha0 ha40 hb0 hb40 hne
  obtain ⟨x, hx⟩ : ∃ x : ℕ, a.electronegativity = (x : ℤ) :=
    ⟨a.electronegativity.toNat, (Int.toNat_of_nonneg ha0).symm⟩
  obtain ⟨y, hy⟩ : ∃ y : ℕ, b.electronegativity = (y : ℤ) :=
    ⟨b.electronegativity.toNat, (Int.toNat_of_nonneg hb0).symm⟩
  have hx41 : x < 41 := by omega
  have hy41 : y < 41 := by omega
  obtain ⟨hion, hcov⟩ := getBondType_cases a b
  rw [hx, hy] at hion hcov hne
  rw [hx, hy]
  have hkey := jsDiff_exact_agree x hx41 y hy41 hne
  refine ⟨?_, ?_⟩
  · rw [hion]
    exact hkey
  · rw [hcov, hkey]
    exact not_lt

theorem getBondType_spec_amended_witness :
    (getBondType Atoms.Na Atoms.Cl = .ionic ↔
      mathAbs (Atoms.Na.electronegativity - Atoms.Cl.electronegativity) > 17)
    ∧ (getBondType Atoms.Na Atoms.Cl = .covalent ↔
      mathAbs (Atoms.Na.electronegativity - Atoms.Cl.electronegativity) ≤ 17) :=
  getBondType_spec_amended.1 Atoms.Na Atoms.Cl
    (by decide) (by decide) (by decide) (by decide) (by decide)

/-- C6: the `maxBonds` lookup of `calculateAvailableBonds` maps H to 1,
O to 2, N to 3, C to 4, and yields the default 1 for every symbol absent from
its table. -/
theorem maxBonds_lookup_spec :
    maxBondsOf "H" = 1 ∧ maxBondsOf "O" = 2 ∧ maxBondsOf "N" = 3 ∧ maxBondsOf "C" = 4
    ∧ ∀ s : String, maxBondsTable.lookup s = none → maxBondsOf s = 1 := by
  refine ⟨by decide, by decide, by decide, by decide, ?_⟩
  intro s hs
  unfold maxBondsOf
  rw [hs]
  rfl

theorem maxBonds_lookup_spec_witness : maxBondsOf "Zz" = 1 :=
  maxBonds_lookup_spec.2.2.2.2 "Zz" (by decide)

/-- C7: `calculateAvailableBonds` equals
`max 0 (maxBonds(symbol) − existingBonds)` and is never negative. -/
theorem calculateAvailableBonds_spec (atomData : AtomData) (existingBonds : ℤ)
    (h : 0 ≤ existingBonds) :
    calculateAvailableBonds atomData existingBonds
      = max 0 ((maxBondsOf atomData.symbol : ℤ) - existingBonds)
    ∧ 0 ≤ calculateAvailableBonds atomData existingBonds :=
  ⟨rfl, le_max_left 0 _⟩

theorem calculateAvailableBonds_spec_witness :
    calculateAvailableBonds Atoms.H 5
      = max 0 ((maxBondsOf Atoms.H.symbol : ℤ) - 5)
    ∧ 0 ≤ calculateAvailableBonds Atoms.H 5 :=
  calculateAvailableBonds_spec Atoms.H 5 (by decide)

/-- C8: when both identifiers resolve to placed atoms and a bond between
them already exists in either orientation, `createBond` rejects with the
duplicate-bond outcome and leaves the state unchanged, for both argument
orders. -/
theorem createBond_duplicate_rejected (st : GameState)
    (atom1Id atom2Id newId1 newId2 : String)
    (h1 : (st.placedAtoms.find? fun a => a.id == atom1Id).isSome = true)
    (h2 : (st.placedAtoms.find? fun a => a.id == atom2Id).isSome = true)
    (hdup : st.bonds.any (bondBetween atom1Id atom2Id) = true) :
    createBond st atom1Id atom2Id newId1 = (.bondExists, st)
    ∧ createBond st atom2Id atom1Id newId2 = (.bondExists, st) := by
  obtain ⟨a1, ha1⟩ := Option.isSome_iff_exists.mp h1
  obtain ⟨a2, ha2⟩ := Option.isSome_iff_exists.mp h2
  have hdup2 : st.bonds.any (bondBetween atom2Id atom1Id) = true := by
    rw [any_bondBetween_swap]; exact hdup
  constructor
  · unfold createBond
    rw [ha1, ha2]
    simp [hdup]
  · unfold createBond
    rw [ha1, ha2]
    simp [hdup2]

theorem createBond_duplicate_rejected_witness :
    createBond duplicateScene "h1" "h2" "n1" = (.bondExists, duplicateScene)
    ∧ createBond duplicateScene "h2" "h1" "n2" = (.bondExists, duplicateScene) :=
  createBond_duplicate_rejected duplicateScene "h1" "h2" "n1" "n2"
    (by decide) (by decide) (by decide)

/-- C9 — counterexample to the claim as stated: `createBond` performs no
same-instance check, so calling it with the same identifier twice on a
Hydrogen with a free slot succeeds (the H–H pair passes `canBond`, the
distance from the atom to itself is 0) and appends a self-bond. -/
theorem createBond_selfBond_succeeds :
    (createBond selfBondScene "h1" "h1" "b1").1 = .success .covalent
    ∧ (createBond selfBondScene "h1" "h1" "b1").2.bonds.length = 1 := by decide

/-- C9 — amended claim: the same-instance rejection lives one level up,
in the bonding branch of `handleAtomClick`: clicking the atom already
selected as `firstAtomForBond` cancels bond creation, resets the selection
and leaves the state unchanged, so `createBond` is never invoked with two
equal identifiers by the click protocol. -/
theorem handleBondClick_same_atom_cancels (st : GameState)
    (firstId newBondId : String) :
    handleBondClick st (some firstId) firstId newBondId = (none, st) := by
  simp [handleBondClick]

/-- C10: every rejection path of `createBond` (missing atom, duplicate
bond, exhausted bond slots, incompatible elements, excessive distance)
leaves the bond list, the placed-atom list, every atom's `availableBonds`
value and the score unchanged. -/
theorem createBond_reject_atomic (st : GameState) (atom1Id atom2Id newBondId : String)
    (h : (createBond st atom1Id atom2Id newBondId).1.isSuccess = false) :
    (createBond st atom1Id atom2Id newBondId).2.bonds = st.bonds
    ∧ (createBond st atom1Id atom2Id newBondId).2.placedAtoms = st.placedAtoms
    ∧ (createBond st atom1Id atom2Id newBondId).2.placedAtoms.map PlacedAtom.availableBonds
        = st.placedAtoms.map PlacedAtom.availableBonds
    ∧ (createBond st atom1Id atom2Id newBondId).2.score = st.score := by
  rcases createBond_success_or_unchanged st atom1Id atom2Id newBondId with hs | hid
  · rw [hs] at h
    exact absurd h (by simp)
  · rw [hid]
    exact ⟨rfl, rfl, rfl, rfl⟩

theorem createBond_reject_atomic_witness :
    (createBond emptyScene "x" "y" "b").2.bonds = emptyScene.bonds
    ∧ (createBond emptyScene "x" "y" "b").2.placedAtoms = emptyScene.placedAtoms
    ∧ (createBond emptyScene "x" "y" "b").2.placedAtoms.map PlacedAtom.availableBonds
        = emptyScene.placedAtoms.map PlacedAtom.availableBonds
    ∧ (createBond emptyScene "x" "y" "b").2.score = emptyScene.score :=
  createBond_reject_atomic emptyScene "x" "y" "b" (by decide)
